import Mathlib

/-
Verification of the sermo-socket connection/session engine.

The repository holds two historical variants of the engine:
  * the legacy one (src/src/socket.ts), where only code === 200 counts as a
    success and the error message is read as message.data.error with no guard;
  * the newer one (src/unnamed/part_002, the Map-based SermoSocket), where
    any code in [200,300) counts as a success and the error message is
    message.data?.error with a generic fallback.
Both variants share the framing loop, the reconnect backoff, the offline
precondition of request, and the state-change handling; those are embedded
once, following the newer variant (the two texts agree on them line by line).
The per-message response handling is embedded twice, once per variant.
-/

namespace Sermo

/-- JavaScript runtime values, as far as the handlers need them: `undefined` is
the JS undefined value (produced by a missing property), the other constructors cover
everything `JSON.parse` can return. -/
inductive JsValue where
  | undefined : JsValue
  | null : JsValue
  | bool : Bool → JsValue
  | num : Int → JsValue
  | str : String → JsValue
  | arr : List JsValue → JsValue
  | obj : List (String × JsValue) → JsValue
deriving Repr

/-- JavaScript runtime errors thrown by the handlers. -/
inductive JsError where
  | typeError : String → JsError
deriving Repr, DecidableEq

/-- Field lookup in a JS object (first binding wins, as in a parsed object). -/
def lookupField : List (String × JsValue) → String → Option JsValue
  | [], _ => none
  | (k, v) :: rest, f => if k = f then some v else lookupField rest f

/-- JavaScript property access `v.f`: throws a TypeError on null and undefined,
yields the field (or undefined) on objects, and undefined on other values. -/
def JsValue.getProp : JsValue → String → Except JsError JsValue
  | .undefined, f => .error (.typeError ("Cannot read properties of undefined (reading " ++ f ++ ")"))
  | .null, f => .error (.typeError ("Cannot read properties of null (reading " ++ f ++ ")"))
  | .obj fields, f => .ok ((lookupField fields f).getD .undefined)
  | .arr xs, f => .ok (if f = "length" then .num xs.length else .undefined)
  | .bool _, _ => .ok .undefined
  | .num _, _ => .ok .undefined
  | .str _, _ => .ok .undefined

/-- ASCII uppercase, the effect of toUpperCase on the strings this protocol
compares (defined over the character list so that it reduces in the kernel). -/
def jsUpper (s : String) : String :=
  String.mk (s.data.map Char.toUpper)

/-- JavaScript method call `v.toUpperCase()`: succeeds only on strings; on any
other value the method is not a function (or the access itself throws). -/
def jsToUpperCase : JsValue → Except JsError String
  | .str s => .ok (jsUpper s)
  | _ => .error (.typeError "toUpperCase is not a function")

/-- JavaScript truthiness of a value (NaN is not modelled). -/
def jsTruthy : JsValue → Bool
  | .undefined => false
  | .null => false
  | .bool b => b
  | .num n => n != 0
  | .str s => s != ""
  | .arr _ => true
  | .obj _ => true

/-- JavaScript optional chaining `v?.f`: undefined when v is null or undefined,
plain property access otherwise (which then cannot throw). -/
def optChainField (v : JsValue) (f : String) : JsValue :=
  match v.getProp f with
  | .ok w => w
  | .error _ => .undefined

/-- Connection state of the socket (SermoSocketState). -/
inductive SermoSocketState where
  | INITIALIZING : SermoSocketState
  | CONNECTED : SermoSocketState
  | DISCONNECTED : SermoSocketState
deriving Repr, DecidableEq

/-- Decoded wire message (SermoResponse): type, url, code, optional data,
requestId. The data payload stays dynamic because the code treats it as such. -/
structure SermoResponse where
  type : String
  url : String
  code : Int
  data : JsValue
  requestId : String
deriving Repr

/-- Failure kinds surfaced to callers: SocketOffline, SermoSocketTimeout
(carrying the requestId) and SermoSocketRequestError (message, code, url, data). -/
inductive SermoError where
  | socketOffline : SermoError
  | timeout : String → SermoError
  | requestError : JsValue → Int → String → JsValue → SermoError
deriving Repr

/-- Payload handed to emitter listeners. -/
inductive EmitPayload where
  | unit : EmitPayload
  | msg : SermoResponse → EmitPayload
  | stateChange : SermoSocketState → SermoSocketState → EmitPayload
  | errPayload : EmitPayload
deriving Repr

/-- Observable actions of the engine: emitter emissions, promise
resolutions and rejections, stream writes and timer scheduling. -/
inductive Effect where
  | emit : String → EmitPayload → Effect
  | resolve : String → SermoResponse → Effect
  | reject : String → SermoError → Effect
  | write : String → String → String → Effect
  | scheduleReconnect : Nat → Effect
  | scheduleRequestTimeout : String → Nat → Effect
  | reconnectTimerFired : Effect
deriving Repr

/-- Constructor-normalized options: reconnect defaults to true, endByte to 10. -/
structure SermoSocketOptions where
  reconnect : Bool := true
  endByte : Nat := 10
deriving Repr, DecidableEq

/-- One entry of the pending-request table: its key and the duration of its
timeout timer (the resolve and reject continuations become Effects). -/
structure SermoPendingRequest where
  requestId : String
  timeoutMs : Nat
deriving Repr, DecidableEq

/-- Per-call request options (only the timeout matters to the engine). -/
structure SermoRequestOptions where
  timeout : Option Nat := none
deriving Repr, DecidableEq

/-- The SermoSocket instance state. socket records whether the socket field
holds an object (socket.destroy does not unset it); reconnectTimeout holds the
delay of the scheduled reconnect timer while one is outstanding. -/
structure SermoSocket where
  options : SermoSocketOptions
  socket : Bool
  state : SermoSocketState
  lastMessage : Option Nat
  reconnectTimeout : Option Nat
  reconnectCount : Nat
  pendingRequest : List (String × SermoPendingRequest)
  buffer : List Nat
deriving Repr

/-- SermoSocket.create: a freshly constructed instance. -/
def SermoSocket.create (options : SermoSocketOptions) : SermoSocket :=
  { options := options
    socket := false
    state := .INITIALIZING
    lastMessage := none
    reconnectTimeout := none
    reconnectCount := 0
    pendingRequest := []
    buffer := [] }

/-- The framing loop at the head of onData: scan the incoming bytes, pushing
each non-delimiter byte onto the instance buffer and closing one message per
delimiter byte; returns the final buffer and the messages in order. -/
def onDataSplit (endByte : Nat) : List Nat → List Nat → List Nat × List (List Nat)
  | buffer, [] => (buffer, [])
  | buffer, b :: rest =>
    if b ≠ endByte then
      onDataSplit endByte (buffer ++ [b]) rest
    else
      let r := onDataSplit endByte [] rest
      (r.1, buffer :: r.2)

/-- Reference splitter for the Framer claim: the chunks of a byte list strictly
between delimiter occurrences, including the leading chunk before the first
delimiter and the trailing chunk after the last one (so always one chunk more
than there are delimiters). -/
def splitChunks (d : Nat) : List Nat → List (List Nat)
  | [] => [[]]
  | b :: rest =>
    if b = d then [] :: splitChunks d rest
    else
      match splitChunks d rest with
      | [] => [[b]]
      | c :: cs => (b :: c) :: cs

/-- Prepend a pre-existing buffer to the first chunk of a chunk list. -/
def prependFirst (buffer : List Nat) : List (List Nat) → List (List Nat)
  | [] => [buffer]
  | c :: cs => (buffer ++ c) :: cs

theorem splitChunks_ne_nil (d : Nat) (l : List Nat) : splitChunks d l ≠ [] := by
  cases l with
  | nil => simp [splitChunks]
  | cons b rest =>
    simp only [splitChunks]
    by_cases h : b = d
    · simp [h]
    · simp only [h, if_false]
      cases splitChunks d rest <;> simp

theorem splitChunks_length (d : Nat) (l : List Nat) :
    (splitChunks d l).length = l.count d + 1 := by
  induction l with
  | nil => simp [splitChunks]
  | cons b rest ih =>
    by_cases h : b = d
    · simp [splitChunks, h, List.count_cons, ih]
    · cases hc : splitChunks d rest with
      | nil => exact absurd hc (splitChunks_ne_nil d rest)
      | cons c cs =>
        rw [hc] at ih
        simp [splitChunks, h, hc, List.count_cons, ← ih]

theorem onDataSplit_eq (d : Nat) (data : List Nat) : ∀ buffer : List Nat,
    (onDataSplit d buffer data).2 ++ [(onDataSplit d buffer data).1]
      = prependFirst buffer (splitChunks d data) := by
  induction data with
  | nil => intro buffer; simp [onDataSplit, splitChunks, prependFirst]
  | cons b rest ih =>
    intro buffer
    by_cases h : b = d
    · simp only [onDataSplit, h, ne_eq, not_true_eq_false, if_false, splitChunks, if_pos rfl,
        prependFirst, List.cons_append, List.append_nil]
      have := ih []
      cases hc : splitChunks d rest with
      | nil => exact absurd hc (splitChunks_ne_nil d rest)
      | cons c cs =>
        rw [hc] at this
        simp only [prependFirst, List.nil_append] at this
        simp [this]
    · simp only [onDataSplit, ne_eq, h, not_false_eq_true, if_true, splitChunks, if_neg h]
      have := ih (buffer ++ [b])
      cases hc : splitChunks d rest with
      | nil => exact absurd hc (splitChunks_ne_nil d rest)
      | cons c cs =>
        rw [hc] at this
        simp only [prependFirst] at this ⊢
        simpa [List.append_assoc] using this

theorem prependFirst_length (buffer : List Nat) (cs : List (List Nat)) (h : cs ≠ []) :
    (prependFirst buffer cs).length = cs.length := by
  cases cs with
  | nil => exact absurd rfl h
  | cons c rest => simp [prependFirst]

/-- SermoSocket.disconnect: a no-op without a socket field; otherwise forces the
state to DISCONNECTED, clears lastMessage and the frame buffer and destroys the
stream (destroy leaves the socket field set). -/
def SermoSocket.disconnect (s : SermoSocket) : SermoSocket :=
  if s.socket = false then s
  else { s with state := .DISCONNECTED, lastMessage := none, buffer := [] }

/-- The backoff computation inside reconnect, keyed by the cumulative
reconnect attempt count. -/
def backoffDelay (reconnectCount : Nat) : Nat :=
  if reconnectCount > 200 then 10000
  else if reconnectCount > 150 then 5000
  else if reconnectCount > 100 then 2000
  else if reconnectCount > 50 then 1000
  else if reconnectCount > 20 then 500
  else 100

/-- SermoSocket.reconnect: an early return while a reconnect timer is already
outstanding; otherwise disconnects and schedules one reconnect timer with the
backoff delay for the current attempt count. -/
def SermoSocket.reconnect (s : SermoSocket) : SermoSocket × List Effect :=
  match s.reconnectTimeout with
  | some _ => (s, [])
  | none =>
    let s1 := s.disconnect
    let d := backoffDelay s1.reconnectCount
    ({ s1 with reconnectTimeout := some d }, [Effect.scheduleReconnect d])

/-- SermoSocket.init: disconnects the old socket, then installs the new one
with a fresh frame buffer. -/
def SermoSocket.init (s : SermoSocket) : SermoSocket :=
  let s1 := s.disconnect
  { s1 with socket := true, buffer := [] }

/-- SermoSocket.connect: creates a connection and hands it to init. -/
def SermoSocket.connect (s : SermoSocket) : SermoSocket := s.init

/-- onMessage: records the time of the last received message. -/
def SermoSocket.onMessage (s : SermoSocket) (now : Nat) : SermoSocket :=
  { s with lastMessage := some now }

/-- onStateChange: a no-op when the state is unchanged. On a change to
DISCONNECTED it emits disconnect when the previous state was CONNECTED, then
calls reconnect when reconnect is enabled, then rejects every pending request
with a Timeout carrying its requestId (without clearing the table). In every
change it then emits state-change with the new state and the current value of
the state field, updates the field, and finally emits connect when the new
state is CONNECTED. -/
def SermoSocket.onStateChange (s : SermoSocket) (st : SermoSocketState) :
    SermoSocket × List Effect :=
  if s.state = st then (s, [])
  else
    let step1 : SermoSocket × List Effect :=
      if st = .DISCONNECTED then
        let discEff := if s.state = .CONNECTED then [Effect.emit "disconnect" EmitPayload.unit] else []
        let recPair := if s.options.reconnect then s.reconnect else (s, [])
        let rejEff := recPair.1.pendingRequest.map
          (fun p => Effect.reject p.1 (SermoError.timeout p.1))
        (recPair.1, discEff ++ recPair.2 ++ rejEff)
      else (s, [])
    let scEff := Effect.emit "state-change" (EmitPayload.stateChange st step1.1.state)
    let connEff := if st = .CONNECTED then [Effect.emit "connect" EmitPayload.unit] else []
    ({ step1.1 with state := st }, step1.2 ++ [scEff] ++ connEff)

/-- onConnect: resets the reconnect counter, transitions to CONNECTED and
records the message time. -/
def SermoSocket.onConnect (s : SermoSocket) (now : Nat) : SermoSocket × List Effect :=
  let s1 : SermoSocket := { s with reconnectCount := 0 }
  let r := s1.onStateChange .CONNECTED
  (r.1.onMessage now, r.2)

/-- onError: transitions to DISCONNECTED and re-emits the error. -/
def SermoSocket.onError (s : SermoSocket) : SermoSocket × List Effect :=
  let r := s.onStateChange .DISCONNECTED
  (r.1, r.2 ++ [Effect.emit "error" EmitPayload.errPayload])

/-- onEnd: transitions to DISCONNECTED. -/
def SermoSocket.onEnd (s : SermoSocket) : SermoSocket × List Effect :=
  s.onStateChange .DISCONNECTED

/-- Map.set on the pending-request table: replace the binding when the key is
present, append it otherwise. -/
def setPending : List (String × SermoPendingRequest) → String → SermoPendingRequest →
    List (String × SermoPendingRequest)
  | [], k, v => [(k, v)]
  | (k0, v0) :: rest, k, v =>
    if k0 = k then (k, v) :: rest else (k0, v0) :: setPending rest k v

/-- Map.get / Map.has on the pending-request table. -/
def lookupPending : List (String × SermoPendingRequest) → String → Option SermoPendingRequest
  | [], _ => none
  | (k0, v0) :: rest, k => if k0 = k then some v0 else lookupPending rest k

/-- Map.delete on the pending-request table. -/
def erasePending : List (String × SermoPendingRequest) → String →
    List (String × SermoPendingRequest)
  | [], _ => []
  | (k0, v0) :: rest, k => if k0 = k then rest else (k0, v0) :: erasePending rest k

/-- The timer duration picked by request: options.timeout when given and
truthy (0 is falsy in JS, so a 0 falls back), else the 5000 default. -/
def requestTimeoutMs (options : SermoRequestOptions) : Nat :=
  match options.timeout with
  | some n => if n = 0 then 5000 else n
  | none => 5000

/-- SermoSocket.request: normalizes the method, throws SocketOffline when
there is no socket or the state is not CONNECTED, otherwise writes the encoded
request plus delimiter and registers a pending request together with its
timeout timer. The fresh requestId (String(Math.random())) is a parameter. -/
def SermoSocket.request (s : SermoSocket) (method url : String)
    (options : SermoRequestOptions) (requestId : String) :
    Except SermoError (SermoSocket × List Effect) :=
  if s.socket = false ∨ s.state ≠ SermoSocketState.CONNECTED then
    Except.error SermoError.socketOffline
  else
    let t := requestTimeoutMs options
    Except.ok
      ({ s with pendingRequest := setPending s.pendingRequest requestId ⟨requestId, t⟩ },
       [Effect.write (jsUpper method) url requestId, Effect.scheduleRequestTimeout requestId t])

/-- The body of the per-request timeout timer: it only rejects the promise with
a Timeout carrying the requestId; it does not touch the pending table. -/
def SermoSocket.requestTimeoutFire (s : SermoSocket) (requestId : String) :
    SermoSocket × List Effect :=
  (s, [Effect.reject requestId (SermoError.timeout requestId)])

/-- The newer variant error message for a rejected response:
message.data?.error with the generic fallback for falsy values. -/
def errMessageNew (data : JsValue) : JsValue :=
  let e := optChainField data "error"
  if jsTruthy e then e else .str "Request failed"

/-- onData per decoded message, newer variant: record the message time, emit
push for a PUSH type, and for a REQUEST type with a matching pending entry
cancel its timer, resolve on a 2xx code or reject with a RequestError
otherwise, then delete the entry. -/
def SermoSocket.onDataMessage (s : SermoSocket) (msg : SermoResponse) (now : Nat) :
    SermoSocket × List Effect :=
  let s0 := s.onMessage now
  let pushEff := if jsUpper msg.type = "PUSH" then [Effect.emit "push" (EmitPayload.msg msg)] else []
  if jsUpper msg.type = "REQUEST" ∧ (lookupPending s0.pendingRequest msg.requestId).isSome = true then
    let settleEff :=
      if 200 ≤ msg.code ∧ msg.code < 300 then [Effect.resolve msg.requestId msg]
      else [Effect.reject msg.requestId
              (SermoError.requestError (errMessageNew msg.data) msg.code msg.url msg.data)]
    ({ s0 with pendingRequest := erasePending s0.pendingRequest msg.requestId },
     pushEff ++ settleEff)
  else (s0, pushEff)

/-- onData per decoded message, legacy variant (src/src/socket.ts): the push is
emitted both on the push channel and on the channel named by the url of the
message; only code === 200 resolves; the rejection reads message.data.error
without a guard, which throws when data is absent. The pending table is
reduced to its key list since the legacy entries carry nothing this needs. -/
def onDataMessageLegacy (pending : List String) (msg : SermoResponse) :
    Except JsError (List String × List Effect) :=
  let pushEff :=
    if jsUpper msg.type = "PUSH" then
      [Effect.emit "push" (EmitPayload.msg msg), Effect.emit msg.url (EmitPayload.msg msg)]
    else []
  if jsUpper msg.type = "REQUEST" ∧ pending.contains msg.requestId = true then
    if msg.code = 200 then
      Except.ok (pending.erase msg.requestId, pushEff ++ [Effect.resolve msg.requestId msg])
    else
      match msg.data.getProp "error" with
      | Except.error e => Except.error e
      | Except.ok em =>
        Except.ok (pending.erase msg.requestId,
          pushEff ++ [Effect.reject msg.requestId
            (SermoError.requestError em msg.code msg.url msg.data)])
  else Except.ok (pending, pushEff)

/-- The first dynamic step both onData variants take on a parsed message:
evaluate message.type.toUpperCase(), which throws when the parsed value has no
string type field. -/
def typeCheckDyn (v : JsValue) : Except JsError String :=
  match v.getProp "type" with
  | Except.error e => Except.error e
  | Except.ok t => jsToUpperCase t

/-- One iteration of the messages.forEach body up to the type dispatch: none
models a frame whose bytes failed JSON.parse (caught, silently dropped); a
parsed value proceeds to evaluate message.type.toUpperCase(). -/
def onFrameParsed (parseResult : Option JsValue) : Except JsError (Option String) :=
  match parseResult with
  | none => Except.ok none
  | some v =>
    match typeCheckDyn v with
    | Except.error e => Except.error e
    | Except.ok tu => Except.ok (some tu)

/-- Whether a parsed JSON value carries a string type field. -/
def hasStringTypeField (v : JsValue) : Bool :=
  match v with
  | .obj fields =>
    match lookupField fields "type" with
    | some (.str _) => true
    | _ => false
  | _ => false

/-- External events driving the engine: stream events, public calls and timer
firings. -/
inductive Ev where
  | sockConnect : Nat → Ev
  | sockError : Ev
  | sockEnd : Ev
  | callDisconnect : Ev
  | callReconnect : Ev
  | reconnectFire : Ev
  | callRequest : String → String → SermoRequestOptions → String → Ev
  | requestTimeoutExpire : String → Ev
  | dataMessage : SermoResponse → Nat → Ev
deriving Repr

/-- One step of the engine on one external event. The reconnectFire case is
the body of the reconnect timer callback: clear the timer field, bump the
counter and try to connect again; it can only run while a timer is
outstanding. A request that throws SocketOffline leaves the state untouched
and produces no effect. -/
def step (s : SermoSocket) : Ev → SermoSocket × List Effect
  | .sockConnect now => s.onConnect now
  | .sockError => s.onError
  | .sockEnd => s.onEnd
  | .callDisconnect => (s.disconnect, [])
  | .callReconnect => s.reconnect
  | .reconnectFire =>
    match s.reconnectTimeout with
    | none => (s, [])
    | some _ =>
      let s1 : SermoSocket := { s with reconnectTimeout := none, reconnectCount := s.reconnectCount + 1 }
      (s1.connect, [Effect.reconnectTimerFired])
  | .callRequest method url options rid =>
    match s.request method url options rid with
    | Except.error _ => (s, [])
    | Except.ok r => r
  | .requestTimeoutExpire rid => s.requestTimeoutFire rid
  | .dataMessage msg now => s.onDataMessage msg now

/-- Run a list of events from a state, accumulating the effects. -/
def run (s : SermoSocket) : List Ev → SermoSocket × List Effect
  | [] => (s, [])
  | e :: evs =>
    let r1 := step s e
    let r2 := run r1.1 evs
    (r2.1, r1.2 ++ r2.2)

/-- Number of reconnect timers scheduled in an effect list. -/
def countSched (effs : List Effect) : Nat :=
  effs.countP (fun e => match e with | Effect.scheduleReconnect _ => true | _ => false)

/-- Number of reconnect timers that fired in an effect list. -/
def countFired (effs : List Effect) : Nat :=
  effs.countP (fun e => match e with | Effect.reconnectTimerFired => true | _ => false)

/-- Indicator of an outstanding reconnect timer. -/
def timerInd (s : SermoSocket) : Nat :=
  if s.reconnectTimeout.isSome then 1 else 0

/-- Delivery model of the shared EventEmitter: every listener registered under
an event name receives the payload of every emission carrying that exact
name, in emission order. -/
def deliver (listeners : List (String × Nat)) (effs : List Effect) :
    List (Nat × EmitPayload) :=
  effs.foldl
    (fun acc e =>
      match e with
      | Effect.emit name p => acc ++ (listeners.filter (fun l => l.1 == name)).map (fun l => (l.2, p))
      | _ => acc)
    []

theorem disconnect_pendingRequest (s : SermoSocket) :
    s.disconnect.pendingRequest = s.pendingRequest := by
  unfold SermoSocket.disconnect; split <;> rfl

theorem disconnect_reconnectCount (s : SermoSocket) :
    s.disconnect.reconnectCount = s.reconnectCount := by
  unfold SermoSocket.disconnect; split <;> rfl

theorem disconnect_reconnectTimeout (s : SermoSocket) :
    s.disconnect.reconnectTimeout = s.reconnectTimeout := by
  unfold SermoSocket.disconnect; split <;> rfl

theorem reconnect_pendingRequest (s : SermoSocket) :
    (s.reconnect).1.pendingRequest = s.pendingRequest := by
  unfold SermoSocket.reconnect
  cases htim : s.reconnectTimeout <;> simp [htim, disconnect_pendingRequest]

theorem reconnect_reconnectCount (s : SermoSocket) :
    (s.reconnect).1.reconnectCount = s.reconnectCount := by
  unfold SermoSocket.reconnect
  cases htim : s.reconnectTimeout <;> simp [htim, disconnect_reconnectCount]

theorem onStateChange_pendingRequest (s : SermoSocket) (st : SermoSocketState) :
    (s.onStateChange st).1.pendingRequest = s.pendingRequest := by
  unfold SermoSocket.onStateChange
  by_cases h : s.state = st
  · simp [h]
  · by_cases hd : st = SermoSocketState.DISCONNECTED
    · subst hd
      by_cases hr : s.options.reconnect <;>
        simp [h, hr, reconnect_pendingRequest]
    · simp [h, hd]

theorem onStateChange_reconnectCount (s : SermoSocket) (st : SermoSocketState) :
    (s.onStateChange st).1.reconnectCount = s.reconnectCount := by
  unfold SermoSocket.onStateChange
  by_cases h : s.state = st
  · simp [h]
  · by_cases hd : st = SermoSocketState.DISCONNECTED
    · subst hd
      by_cases hr : s.options.reconnect <;>
        simp [h, hr, reconnect_reconnectCount]
    · simp [h, hd]

theorem lookupPending_setPending (l : List (String × SermoPendingRequest)) (k : String)
    (v : SermoPendingRequest) : lookupPending (setPending l k v) k = some v := by
  induction l with
  | nil => simp [setPending, lookupPending]
  | cons kv rest ih =>
    obtain ⟨k0, v0⟩ := kv
    by_cases h : k0 = k
    · simp [setPending, lookupPending, h]
    · simp [setPending, lookupPending, h, ih]

/-- C2: feeding a byte sequence with k delimiter bytes through the framing
loop produces exactly k messages, namely the chunks of the input strictly
between consecutive delimiters, with the pre-existing buffer contents prefixed
to the first message (so an input starting with a delimiter closes the buffer
as-is, empty when the buffer was empty); the final chunk stays buffered. -/
theorem c2_framer_messages (d : Nat) (buffer data : List Nat) :
    (onDataSplit d buffer data).2.length = data.count d ∧
    (onDataSplit d buffer data).2 ++ [(onDataSplit d buffer data).1]
      = prependFirst buffer (splitChunks d data) := by
  refine ⟨?_, onDataSplit_eq d data buffer⟩
  have hl := congrArg List.length (onDataSplit_eq d data buffer)
  rw [List.length_append, List.length_singleton,
    prependFirst_length buffer _ (splitChunks_ne_nil d data), splitChunks_length] at hl
  omega

/-- C5: a request call with no socket, or with a state other than CONNECTED,
throws SocketOffline; the engine state is unchanged (so no pending entry is
created) and no effect is produced (in particular nothing is written). -/
theorem c5_offline_request (s : SermoSocket) (method url : String)
    (options : SermoRequestOptions) (rid : String)
    (h : s.socket = false ∨ s.state ≠ SermoSocketState.CONNECTED) :
    s.request method url options rid = Except.error SermoError.socketOffline ∧
    step s (Ev.callRequest method url options rid) = (s, []) := by
  have hreq : s.request method url options rid = Except.error SermoError.socketOffline := by
    unfold SermoSocket.request
    rw [if_pos h]
  exact ⟨hreq, by simp [step, hreq]⟩

/-- C5 witness: a freshly created socket (no stream, INITIALIZING) refuses the
request and keeps its state. -/
theorem c5_offline_request_witness :
    (SermoSocket.create {}).request "GET" "/users" {} "r1"
        = Except.error SermoError.socketOffline ∧
    step (SermoSocket.create {}) (Ev.callRequest "GET" "/users" {} "r1")
        = (SermoSocket.create {}, []) :=
  c5_offline_request (SermoSocket.create {}) "GET" "/users" {} "r1" (Or.inl rfl)

/-- C9: a frame whose bytes fail JSON.parse is silently dropped, while every
successfully parsed value without a string type field makes the data handler
throw while evaluating message.type.toUpperCase(). -/
theorem c9_missing_type_throws :
    onFrameParsed none = Except.ok none ∧
    ∀ v : JsValue, hasStringTypeField v = false →
      ∃ e, onFrameParsed (some v) = Except.error e := by
  refine ⟨rfl, ?_⟩
  intro v hv
  cases v with
  | undefined => exact ⟨_, rfl⟩
  | null => exact ⟨_, rfl⟩
  | bool b => exact ⟨_, rfl⟩
  | num n => exact ⟨_, rfl⟩
  | str s => exact ⟨_, rfl⟩
  | arr xs => exact ⟨_, rfl⟩
  | obj fields =>
    cases hl : lookupField fields "type" with
    | none =>
      exact ⟨JsError.typeError "toUpperCase is not a function",
        by simp [onFrameParsed, typeCheckDyn, JsValue.getProp, hl, jsToUpperCase]⟩
    | some w =>
      cases w with
      | undefined =>
        exact ⟨JsError.typeError "toUpperCase is not a function",
          by simp [onFrameParsed, typeCheckDyn, JsValue.getProp, hl, jsToUpperCase]⟩
      | null =>
        exact ⟨JsError.typeError "toUpperCase is not a function",
          by simp [onFrameParsed, typeCheckDyn, JsValue.getProp, hl, jsToUpperCase]⟩
      | bool b =>
        exact ⟨JsError.typeError "toUpperCase is not a function",
          by simp [onFrameParsed, typeCheckDyn, JsValue.getProp, hl, jsToUpperCase]⟩
      | num n =>
        exact ⟨JsError.typeError "toUpperCase is not a function",
          by simp [onFrameParsed, typeCheckDyn, JsValue.getProp, hl, jsToUpperCase]⟩
      | arr ys =>
        exact ⟨JsError.typeError "toUpperCase is not a function",
          by simp [onFrameParsed, typeCheckDyn, JsValue.getProp, hl, jsToUpperCase]⟩
      | obj fs =>
        exact ⟨JsError.typeError "toUpperCase is not a function",
          by simp [onFrameParsed, typeCheckDyn, JsValue.getProp, hl, jsToUpperCase]⟩
      | str t => simp [hasStringTypeField, hl] at hv

/-- C9 witness: the frames parsing to the empty object and to null both make
the handler throw, while a parse failure is dropped. -/
theorem c9_missing_type_throws_witness :
    onFrameParsed none = Except.ok none ∧
    (∃ e, onFrameParsed (some (JsValue.obj [])) = Except.error e) ∧
    (∃ e, onFrameParsed (some JsValue.null) = Except.error e) :=
  ⟨c9_missing_type_throws.1,
   c9_missing_type_throws.2 (JsValue.obj []) rfl,
   c9_missing_type_throws.2 JsValue.null rfl⟩

/-- C10: the legacy engine emits a PUSH message on the push channel and again
on the channel named by the url of the message, on the same emitter that
serves the built-in events, so a listener registered under that very name
(including built-in names such as connect) receives the push message. -/
theorem c10_push_url_channel (pending : List String) (msg : SermoResponse) (lid : Nat)
    (h : jsUpper msg.type = "PUSH") :
    onDataMessageLegacy pending msg
      = Except.ok (pending, [Effect.emit "push" (EmitPayload.msg msg),
          Effect.emit msg.url (EmitPayload.msg msg)]) ∧
    (lid, EmitPayload.msg msg) ∈ deliver [(msg.url, lid)]
        [Effect.emit "push" (EmitPayload.msg msg), Effect.emit msg.url (EmitPayload.msg msg)] := by
  constructor
  · simp [onDataMessageLegacy, h]
  · simp [deliver]

/-- C10 witness: a push message whose url is the built-in connect event name
reaches a listener registered for connect, carrying the push message. -/
theorem c10_push_url_channel_witness :
    onDataMessageLegacy []
        { type := "push", url := "connect", code := 0, data := JsValue.undefined, requestId := "" }
      = Except.ok ([], [Effect.emit "push" (EmitPayload.msg
            { type := "push", url := "connect", code := 0, data := JsValue.undefined, requestId := "" }),
          Effect.emit "connect" (EmitPayload.msg
            { type := "push", url := "connect", code := 0, data := JsValue.undefined, requestId := "" })]) ∧
    (7, EmitPayload.msg
        { type := "push", url := "connect", code := 0, data := JsValue.undefined, requestId := "" })
      ∈ deliver [("connect", 7)]
        [Effect.emit "push" (EmitPayload.msg
            { type := "push", url := "connect", code := 0, data := JsValue.undefined, requestId := "" }),
         Effect.emit "connect" (EmitPayload.msg
            { type := "push", url := "connect", code := 0, data := JsValue.undefined, requestId := "" })] :=
  c10_push_url_channel []
    { type := "push", url := "connect", code := 0, data := JsValue.undefined, requestId := "" } 7 (by decide)

/-- C3 counterexample: a CONNECTED socket with one pending request transitions
to DISCONNECTED; the pending promise is rejected, but contrary to the claim
the pending-request table still holds the entry afterwards — the handler never
clears it. -/
theorem c3_table_not_cleared_cex :
    (({ SermoSocket.create {} with
        socket := true
        state := SermoSocketState.CONNECTED
        pendingRequest := [("r1", { requestId := "r1", timeoutMs := 5000 })] } : SermoSocket).onStateChange
          SermoSocketState.DISCONNECTED).1.pendingRequest
      = [("r1", { requestId := "r1", timeoutMs := 5000 })] ∧
    ([("r1", ({ requestId := "r1", timeoutMs := 5000 } : SermoPendingRequest))]
      ≠ ([] : List (String × SermoPendingRequest))) :=
  ⟨rfl, by decide⟩

/-- C3 (amended): on every transition to DISCONNECTED each pending request is
rejected with a Timeout carrying its requestId, but the pending-request table
keeps all of its entries (the code never clears it; entries disappear only
when a matching response arrives later). -/
theorem c3_disconnect_rejects_pending (s : SermoSocket)
    (h : s.state ≠ SermoSocketState.DISCONNECTED) :
    (∀ p ∈ s.pendingRequest,
        Effect.reject p.1 (SermoError.timeout p.1)
          ∈ (s.onStateChange SermoSocketState.DISCONNECTED).2) ∧
    (s.onStateChange SermoSocketState.DISCONNECTED).1.pendingRequest = s.pendingRequest := by
  refine ⟨?_, onStateChange_pendingRequest s SermoSocketState.DISCONNECTED⟩
  intro p hp
  unfold SermoSocket.onStateChange
  rw [if_neg h]
  by_cases hr : s.options.reconnect
  · simp [hr, reconnect_pendingRequest, List.mem_append, List.mem_map]
    exact Or.inr ⟨p.2, hp⟩
  · simp [hr, List.mem_append, List.mem_map]
    exact ⟨p.2, hp⟩

/-- C3 witness: the CONNECTED socket with two pending requests gets both
rejection effects on the DISCONNECTED transition, and its table survives. -/
theorem c3_disconnect_rejects_pending_witness :
    (∀ p ∈ ({ SermoSocket.create {} with
        socket := true
        state := SermoSocketState.CONNECTED
        pendingRequest := [("a", { requestId := "a", timeoutMs := 5000 }),
          ("b", { requestId := "b", timeoutMs := 700 })] } : SermoSocket).pendingRequest,
        Effect.reject p.1 (SermoError.timeout p.1)
          ∈ (({ SermoSocket.create {} with
              socket := true
              state := SermoSocketState.CONNECTED
              pendingRequest := [("a", { requestId := "a", timeoutMs := 5000 }),
                ("b", { requestId := "b", timeoutMs := 700 })] } : SermoSocket).onStateChange
            SermoSocketState.DISCONNECTED).2) ∧
    (({ SermoSocket.create {} with
        socket := true
        state := SermoSocketState.CONNECTED
        pendingRequest := [("a", { requestId := "a", timeoutMs := 5000 }),
          ("b", { requestId := "b", timeoutMs := 700 })] } : SermoSocket).onStateChange
      SermoSocketState.DISCONNECTED).1.pendingRequest
      = [("a", { requestId := "a", timeoutMs := 5000 }),
         ("b", { requestId := "b", timeoutMs := 700 })] :=
  c3_disconnect_rejects_pending _ (by decide)

/-- C4 counterexample: when a pending request timeout timer fires, the promise
is rejected but the entry is still in the pending-request table afterwards,
contrary to the claim that the entry is removed when the timer fires. -/
theorem c4_timer_no_removal_cex :
    ({ SermoSocket.create {} with
        socket := true
        state := SermoSocketState.CONNECTED
        pendingRequest := [("r1", { requestId := "r1", timeoutMs := 5000 })] } : SermoSocket).requestTimeoutFire
        "r1"
      = ({ SermoSocket.create {} with
          socket := true
          state := SermoSocketState.CONNECTED
          pendingRequest := [("r1", { requestId := "r1", timeoutMs := 5000 })] },
         [Effect.reject "r1" (SermoError.timeout "r1")]) ∧
    lookupPending
        ([("r1", { requestId := "r1", timeoutMs := 5000 })] : List (String × SermoPendingRequest))
        "r1"
      = some { requestId := "r1", timeoutMs := 5000 } :=
  ⟨rfl, rfl⟩

/-- C4 (amended): a request registers a pending entry whose timeout duration
is the per-call override when given and nonzero (0 is falsy in JS) and 5000
the default; when the timer fires the promise is rejected with a Timeout
carrying the requestId, but the entry is not removed from the table (the
timer callback only rejects). -/
theorem c4_request_timeout (s : SermoSocket) (method url rid : String)
    (options : SermoRequestOptions)
    (hsock : s.socket = true) (hst : s.state = SermoSocketState.CONNECTED) :
    (∃ s2, s.request method url options rid
        = Except.ok (s2, [Effect.write (jsUpper method) url rid,
            Effect.scheduleRequestTimeout rid (requestTimeoutMs options)]) ∧
      lookupPending s2.pendingRequest rid
        = some { requestId := rid, timeoutMs := requestTimeoutMs options }) ∧
    requestTimeoutMs { timeout := none } = 5000 ∧
    (∀ n : Nat, n ≠ 0 → requestTimeoutMs { timeout := some n } = n) ∧
    s.requestTimeoutFire rid = (s, [Effect.reject rid (SermoError.timeout rid)]) := by
  have hcond : ¬(s.socket = false ∨ s.state ≠ SermoSocketState.CONNECTED) := by
    simp [hsock, hst]
  refine ⟨?_, rfl, ?_, rfl⟩
  · refine ⟨({ s with pendingRequest := setPending s.pendingRequest rid ({ requestId := rid, timeoutMs := requestTimeoutMs options }) } : SermoSocket), ?_, lookupPending_setPending s.pendingRequest rid _⟩
    unfold SermoSocket.request
    rw [if_neg hcond]
  · intro n hn
    simp [requestTimeoutMs, hn]

/-- C4 witness: a CONNECTED socket accepts a request with a 700ms override and
registers it with that deadline; firing the timer then rejects with Timeout
while the state is untouched. -/
theorem c4_request_timeout_witness :
    (∃ s2, ({ SermoSocket.create {} with
        socket := true
        state := SermoSocketState.CONNECTED } : SermoSocket).request "get" "/u"
          { timeout := some 700 } "r9"
        = Except.ok (s2, [Effect.write (jsUpper "get") "/u" "r9",
            Effect.scheduleRequestTimeout "r9" (requestTimeoutMs { timeout := some 700 })]) ∧
      lookupPending s2.pendingRequest "r9"
        = some { requestId := "r9", timeoutMs := requestTimeoutMs { timeout := some 700 } }) ∧
    requestTimeoutMs { timeout := none } = 5000 ∧
    (∀ n : Nat, n ≠ 0 → requestTimeoutMs { timeout := some n } = n) ∧
    ({ SermoSocket.create {} with
        socket := true
        state := SermoSocketState.CONNECTED } : SermoSocket).requestTimeoutFire "r9"
      = ({ SermoSocket.create {} with
          socket := true
          state := SermoSocketState.CONNECTED },
         [Effect.reject "r9" (SermoError.timeout "r9")]) :=
  c4_request_timeout _ "get" "/u" "r9" { timeout := some 700 } rfl rfl

/-- C1 counterexample: in the legacy engine a matched REQUEST response with
code 201 — inside [200,300) — is rejected with a RequestError instead of
resolving, because only code === 200 counts as success there. -/
theorem c1_code_range_cex :
    onDataMessageLegacy ["r1"]
        { type := "REQUEST", url := "/u", code := 201,
          data := JsValue.obj [("error", JsValue.str "oops")], requestId := "r1" }
      = Except.ok ([], [Effect.reject "r1"
          (SermoError.requestError (JsValue.str "oops") 201 "/u"
            (JsValue.obj [("error", JsValue.str "oops")]))]) := rfl

/-- C1 (amended): for a matched REQUEST message (case-insensitive type), the
newer engine resolves the pending promise with the full response exactly for
codes in [200,300) and rejects every other code with a RequestError carrying
the same code, url and data, deleting the entry either way; the legacy engine
resolves only code exactly 200 and rejects every other code (201 to 299
included) with a RequestError carrying the same code, url and data. -/
theorem c1_response_code_dispatch (s : SermoSocket) (msg : SermoResponse) (now : Nat)
    (hreq : jsUpper msg.type = "REQUEST")
    (hmem : (lookupPending s.pendingRequest msg.requestId).isSome = true) :
    ((200 ≤ msg.code ∧ msg.code < 300) →
        s.onDataMessage msg now
          = ({ s.onMessage now with
                pendingRequest := erasePending s.pendingRequest msg.requestId },
             [Effect.resolve msg.requestId msg])) ∧
    (¬(200 ≤ msg.code ∧ msg.code < 300) →
        s.onDataMessage msg now
          = ({ s.onMessage now with
                pendingRequest := erasePending s.pendingRequest msg.requestId },
             [Effect.reject msg.requestId
                (SermoError.requestError (errMessageNew msg.data) msg.code msg.url msg.data)])) ∧
    (∀ pend, msg.requestId ∈ pend → msg.code = 200 →
        onDataMessageLegacy pend msg
          = Except.ok (pend.erase msg.requestId, [Effect.resolve msg.requestId msg])) ∧
    (∀ pend em, msg.requestId ∈ pend → msg.code ≠ 200 →
        msg.data.getProp "error" = Except.ok em →
        onDataMessageLegacy pend msg
          = Except.ok (pend.erase msg.requestId,
              [Effect.reject msg.requestId
                (SermoError.requestError em msg.code msg.url msg.data)])) := by
  have hpush : ¬jsUpper msg.type = "PUSH" := by rw [hreq]; decide
  refine ⟨?_, ?_, ?_, ?_⟩
  · intro hcode
    simp [SermoSocket.onDataMessage, SermoSocket.onMessage, hreq, hpush, hmem, hcode]
  · intro hcode
    simp [SermoSocket.onDataMessage, SermoSocket.onMessage, hreq, hpush, hmem, hcode]
  · intro pend hpend hcode
    simp [onDataMessageLegacy, hreq, hpush, hpend, hcode]
  · intro pend em hpend hcode hget
    simp [onDataMessageLegacy, hreq, hpush, hpend, hcode, hget]

/-- C1 witness: a matched 204 response resolves in the newer engine and a
matched 500 response rejects in both engines with matching code, url, data. -/
theorem c1_response_code_dispatch_witness :
    (({ SermoSocket.create {} with
        socket := true
        state := SermoSocketState.CONNECTED
        pendingRequest := [("r1", { requestId := "r1", timeoutMs := 5000 })] } : SermoSocket).onDataMessage
          { type := "request", url := "/u", code := 204, data := JsValue.undefined, requestId := "r1" } 3
        = ({ ({ SermoSocket.create {} with
              socket := true
              state := SermoSocketState.CONNECTED
              pendingRequest := [("r1", { requestId := "r1", timeoutMs := 5000 })] } : SermoSocket).onMessage 3 with
              pendingRequest := erasePending
                [("r1", { requestId := "r1", timeoutMs := 5000 })] "r1" },
           [Effect.resolve "r1"
              { type := "request", url := "/u", code := 204, data := JsValue.undefined, requestId := "r1" }])) ∧
    onDataMessageLegacy ["r1"]
        { type := "request", url := "/u", code := 500,
          data := JsValue.obj [("error", JsValue.str "boom")], requestId := "r1" }
      = Except.ok ([], [Effect.reject "r1"
          (SermoError.requestError (JsValue.str "boom") 500 "/u"
            (JsValue.obj [("error", JsValue.str "boom")]))]) :=
  ⟨(c1_response_code_dispatch
      ({ SermoSocket.create {} with
        socket := true
        state := SermoSocketState.CONNECTED
        pendingRequest := [("r1", { requestId := "r1", timeoutMs := 5000 })] } : SermoSocket)
      { type := "request", url := "/u", code := 204, data := JsValue.undefined, requestId := "r1" } 3
      (by decide) rfl).1 (by decide),
   (c1_response_code_dispatch
      ({ SermoSocket.create {} with
        socket := true
        state := SermoSocketState.CONNECTED
        pendingRequest := [("r1", { requestId := "r1", timeoutMs := 5000 })] } : SermoSocket)
      { type := "request", url := "/u", code := 500,
        data := JsValue.obj [("error", JsValue.str "boom")], requestId := "r1" } 3
      (by decide) rfl).2.2.2 ["r1"] (JsValue.str "boom")
      (List.mem_singleton.mpr rfl) (by decide) rfl⟩

/-- C7 counterexample: a matched failing response whose data carries an error
field holding the empty string gets the generic Request failed message, not
data.error, because the code tests JS truthiness; and in the legacy engine a
failing response without data does not get any message at all — the handler
throws reading error of undefined. -/
theorem c7_error_message_cex :
    errMessageNew (JsValue.obj [("error", JsValue.str "")]) = JsValue.str "Request failed" ∧
    JsValue.str "Request failed" ≠ JsValue.str "" ∧
    onDataMessageLegacy ["r1"]
        { type := "REQUEST", url := "/u", code := 500, data := JsValue.undefined, requestId := "r1" }
      = Except.error (JsError.typeError "Cannot read properties of undefined (reading error)") :=
  ⟨rfl, fun h => absurd (JsValue.str.inj h) (by decide), rfl⟩

/-- C7 (amended): in the newer engine the RequestError message equals
data.error exactly when data is present and its error field is truthy; for a
falsy or missing error field, or missing data, the message is the generic
Request failed. In the legacy engine the message is always the raw data.error
and evaluating it throws when data is absent, so no generic message exists. -/
theorem c7_error_message_rules (data e : JsValue) :
    (∀ fields, data = JsValue.obj fields → lookupField fields "error" = some e →
        jsTruthy e = true → errMessageNew data = e) ∧
    (jsTruthy (optChainField data "error") = false →
        errMessageNew data = JsValue.str "Request failed") ∧
    ((data = JsValue.undefined ∨ data = JsValue.null) →
        errMessageNew data = JsValue.str "Request failed" ∧
        ∃ err, data.getProp "error" = Except.error err) ∧
    (∀ pend (msg : SermoResponse), jsUpper msg.type = "REQUEST" →
        msg.requestId ∈ pend → msg.code ≠ 200 → msg.data = JsValue.undefined →
        ∃ err, onDataMessageLegacy pend msg = Except.error err) := by
  refine ⟨?_, ?_, ?_, ?_⟩
  · intro fields hdata hlook htruthy
    subst hdata
    simp [errMessageNew, optChainField, JsValue.getProp, hlook, htruthy]
  · intro hfalsy
    simp [errMessageNew, hfalsy]
  · rintro (hdata | hdata) <;> subst hdata <;>
      exact ⟨rfl, ⟨_, rfl⟩⟩
  · intro pend msg hreq hpend hcode hdata
    have hpush : ¬jsUpper msg.type = "PUSH" := by rw [hreq]; decide
    refine ⟨JsError.typeError "Cannot read properties of undefined (reading error)", ?_⟩
    simp [onDataMessageLegacy, hreq, hpush, hpend, hcode, hdata, JsValue.getProp]

/-- C7 witness: a truthy error string becomes the message; missing data gets
the generic message in the newer engine and a throw in the legacy engine. -/
theorem c7_error_message_rules_witness :
    errMessageNew (JsValue.obj [("error", JsValue.str "boom")]) = JsValue.str "boom" ∧
    errMessageNew JsValue.undefined = JsValue.str "Request failed" ∧
    (∃ err, onDataMessageLegacy ["r1"]
        { type := "REQUEST", url := "/u", code := 404, data := JsValue.undefined, requestId := "r1" }
      = Except.error err) :=
  ⟨(c7_error_message_rules (JsValue.obj [("error", JsValue.str "boom")])
      (JsValue.str "boom")).1 _ rfl rfl rfl,
   ((c7_error_message_rules JsValue.undefined JsValue.undefined).2.2.1 (Or.inl rfl)).1,
   (c7_error_message_rules JsValue.undefined JsValue.undefined).2.2.2 ["r1"]
      { type := "REQUEST", url := "/u", code := 404, data := JsValue.undefined, requestId := "r1" }
      rfl (List.mem_singleton.mpr rfl) (by decide) rfl⟩

theorem connect_reconnectCount (s : SermoSocket) :
    s.connect.reconnectCount = s.reconnectCount := by
  simp [SermoSocket.connect, SermoSocket.init, disconnect_reconnectCount]

theorem connect_reconnectTimeout (s : SermoSocket) :
    s.connect.reconnectTimeout = s.reconnectTimeout := by
  simp [SermoSocket.connect, SermoSocket.init, disconnect_reconnectTimeout]

theorem onConnect_reconnectCount (s : SermoSocket) (now : Nat) :
    (s.onConnect now).1.reconnectCount = 0 := by
  simp [SermoSocket.onConnect, SermoSocket.onMessage, onStateChange_reconnectCount]

theorem onDataMessage_reconnectCount (s : SermoSocket) (msg : SermoResponse) (now : Nat) :
    (s.onDataMessage msg now).1.reconnectCount = s.reconnectCount := by
  simp only [SermoSocket.onDataMessage, SermoSocket.onMessage]
  split_ifs <;> rfl

theorem onDataMessage_reconnectTimeout (s : SermoSocket) (msg : SermoResponse) (now : Nat) :
    (s.onDataMessage msg now).1.reconnectTimeout = s.reconnectTimeout := by
  simp only [SermoSocket.onDataMessage, SermoSocket.onMessage]
  split_ifs <;> rfl

theorem step_callRequest_reconnectCount (s : SermoSocket) (m u rid : String)
    (o : SermoRequestOptions) :
    (step s (Ev.callRequest m u o rid)).1.reconnectCount = s.reconnectCount := by
  simp only [step, SermoSocket.request]
  by_cases hoff : s.socket = false ∨ s.state ≠ SermoSocketState.CONNECTED
  · rw [if_pos hoff]
  · rw [if_neg hoff]

theorem countSched_append (a b : List Effect) :
    countSched (a ++ b) = countSched a + countSched b := by
  simp [countSched, List.countP_append]

theorem countFired_append (a b : List Effect) :
    countFired (a ++ b) = countFired a + countFired b := by
  simp [countFired, List.countP_append]

theorem countSched_rejects (l : List (String × SermoPendingRequest)) :
    countSched (l.map (fun p => Effect.reject p.1 (SermoError.timeout p.1))) = 0 := by
  simp [countSched, List.countP_map, Function.comp]

theorem countFired_rejects (l : List (String × SermoPendingRequest)) :
    countFired (l.map (fun p => Effect.reject p.1 (SermoError.timeout p.1))) = 0 := by
  simp [countFired, List.countP_map, Function.comp]

theorem reconnect_balance (s : SermoSocket) :
    countSched (s.reconnect).2 + timerInd s
      = countFired (s.reconnect).2 + timerInd (s.reconnect).1 := by
  unfold SermoSocket.reconnect
  cases htim : s.reconnectTimeout <;>
    simp [htim, timerInd, countSched, countFired, List.countP_cons]

theorem onStateChange_balance (s : SermoSocket) (st : SermoSocketState) :
    countSched (s.onStateChange st).2 + timerInd s
      = countFired (s.onStateChange st).2 + timerInd (s.onStateChange st).1 := by
  by_cases h : s.state = st
  · simp [SermoSocket.onStateChange, h, countSched, countFired]
  · by_cases hd : st = SermoSocketState.DISCONNECTED
    · subst hd
      have hb := reconnect_balance s
      by_cases hr : s.options.reconnect <;>
        by_cases hc : s.state = SermoSocketState.CONNECTED <;>
          simp [SermoSocket.onStateChange, h, hr, hc, countSched_append, countFired_append,
            countSched, countFired, List.countP_cons, List.countP_map,
            Function.comp_def, timerInd] at hb ⊢ <;>
          omega
    · by_cases hcon : st = SermoSocketState.CONNECTED
      · subst hcon
        simp [SermoSocket.onStateChange, h, hd, countSched_append, countFired_append,
          countSched, countFired, List.countP_cons, timerInd]
      · simp [SermoSocket.onStateChange, h, hd, hcon, countSched_append, countFired_append,
          countSched, countFired, List.countP_cons, timerInd]

theorem step_balance (s : SermoSocket) (e : Ev) :
    countSched (step s e).2 + timerInd s
      = countFired (step s e).2 + timerInd (step s e).1 := by
  cases e with
  | sockConnect now =>
    have hb := onStateChange_balance { s with reconnectCount := 0 } SermoSocketState.CONNECTED
    simp [step, SermoSocket.onConnect, SermoSocket.onMessage, timerInd] at hb ⊢
    omega
  | sockError =>
    have hb := onStateChange_balance s SermoSocketState.DISCONNECTED
    simp [step, SermoSocket.onError, countSched_append, countFired_append,
      countSched, countFired, List.countP_cons, timerInd] at hb ⊢
    omega
  | sockEnd =>
    have hb := onStateChange_balance s SermoSocketState.DISCONNECTED
    simpa [step, SermoSocket.onEnd] using hb
  | callDisconnect =>
    simp [step, timerInd, disconnect_reconnectTimeout, countSched, countFired]
  | callReconnect => simpa [step] using reconnect_balance s
  | reconnectFire =>
    cases htim : s.reconnectTimeout with
    | none => simp [step, htim, countSched, countFired]
    | some t =>
      simp [step, htim, countSched, countFired, List.countP_cons, timerInd,
        connect_reconnectTimeout]
  | callRequest m u o rid =>
    simp only [step, SermoSocket.request]
    by_cases hoff : s.socket = false ∨ s.state ≠ SermoSocketState.CONNECTED
    · rw [if_pos hoff]
      simp [countSched, countFired]
    · rw [if_neg hoff]
      simp [countSched, countFired, List.countP_cons, timerInd]
  | requestTimeoutExpire rid =>
    simp [step, SermoSocket.requestTimeoutFire, countSched, countFired,
      List.countP_cons, timerInd]
  | dataMessage msg now =>
    simp only [step, SermoSocket.onDataMessage, SermoSocket.onMessage]
    split_ifs <;>
      simp [countSched_append, countFired_append, countSched, countFired,
        List.countP_cons, timerInd]

theorem run_balance (evs : List Ev) : ∀ s : SermoSocket,
    countSched (run s evs).2 + timerInd s
      = countFired (run s evs).2 + timerInd (run s evs).1 := by
  induction evs with
  | nil => intro s; simp [run, countSched, countFired]
  | cons e rest ih =>
    intro s
    have h1 := step_balance s e
    have h2 := ih (step s e).1
    simp only [run, countSched_append, countFired_append]
    omega

/-- C6: the reconnect backoff matches the claimed table (100ms while the
cumulative count is at most 20, then 500 up to 50, 1000 up to 100, 2000 up to
150, 5000 up to 200, 10000 beyond); a scheduled reconnect uses exactly the
delay for the current count; each fired reconnect timer increments the count
by one; and no step changes the count except a timer firing (increment) and a
successful connect (reset to 0). -/
theorem c6_reconnect_backoff :
    (∀ n : Nat, backoffDelay n =
        if n ≤ 20 then 100 else if n ≤ 50 then 500 else if n ≤ 100 then 1000
        else if n ≤ 150 then 2000 else if n ≤ 200 then 5000 else 10000) ∧
    (∀ s : SermoSocket, s.reconnectTimeout = none →
        (s.reconnect).2 = [Effect.scheduleReconnect (backoffDelay s.reconnectCount)]) ∧
    (∀ (s : SermoSocket) (t : Nat), s.reconnectTimeout = some t →
        (step s Ev.reconnectFire).1.reconnectCount = s.reconnectCount + 1) ∧
    (∀ (s : SermoSocket) (e : Ev), (step s e).1.reconnectCount ≠ s.reconnectCount →
        (e = Ev.reconnectFire ∧ (step s e).1.reconnectCount = s.reconnectCount + 1) ∨
        ((∃ now, e = Ev.sockConnect now) ∧ (step s e).1.reconnectCount = 0)) := by
  refine ⟨?_, ?_, ?_, ?_⟩
  · intro n
    unfold backoffDelay
    split_ifs <;> omega
  · intro s h
    unfold SermoSocket.reconnect
    rw [h]
    simp [disconnect_reconnectCount]
  · intro s t h
    simp [step, h, connect_reconnectCount]
  · intro s e hne
    cases e with
    | sockConnect now => exact Or.inr ⟨⟨now, rfl⟩, onConnect_reconnectCount s now⟩
    | sockError =>
      exact absurd (onStateChange_reconnectCount s SermoSocketState.DISCONNECTED) hne
    | sockEnd =>
      exact absurd (onStateChange_reconnectCount s SermoSocketState.DISCONNECTED) hne
    | callDisconnect => exact absurd (disconnect_reconnectCount s) hne
    | callReconnect => exact absurd (reconnect_reconnectCount s) hne
    | reconnectFire =>
      cases htim : s.reconnectTimeout with
      | none => exact absurd (by simp [step, htim]) hne
      | some t =>
        exact Or.inl ⟨rfl, by simp [step, htim, connect_reconnectCount]⟩
    | callRequest m u o rid =>
      exact absurd (step_callRequest_reconnectCount s m u rid o) hne
    | requestTimeoutExpire rid => exact absurd rfl hne
    | dataMessage msg now => exact absurd (onDataMessage_reconnectCount s msg now) hne

/-- C6 witness: a fresh instance schedules its first retry with the backoff of
its current count, a firing timer increments the count, and the only count
change a reconnect firing produces is that increment. -/
theorem c6_reconnect_backoff_witness :
    ((SermoSocket.create {}).reconnect).2
      = [Effect.scheduleReconnect (backoffDelay (SermoSocket.create {}).reconnectCount)] ∧
    (step ({ SermoSocket.create {} with reconnectTimeout := some 100 } : SermoSocket)
        Ev.reconnectFire).1.reconnectCount
      = ({ SermoSocket.create {} with reconnectTimeout := some 100 } : SermoSocket).reconnectCount + 1 ∧
    ((Ev.reconnectFire = Ev.reconnectFire ∧
        (step ({ SermoSocket.create {} with reconnectTimeout := some 100 } : SermoSocket)
            Ev.reconnectFire).1.reconnectCount
          = ({ SermoSocket.create {} with reconnectTimeout := some 100 } : SermoSocket).reconnectCount + 1) ∨
      ((∃ now, Ev.reconnectFire = Ev.sockConnect now) ∧
        (step ({ SermoSocket.create {} with reconnectTimeout := some 100 } : SermoSocket)
            Ev.reconnectFire).1.reconnectCount = 0)) :=
  ⟨c6_reconnect_backoff.2.1 (SermoSocket.create {}) rfl,
   c6_reconnect_backoff.2.2.1
     ({ SermoSocket.create {} with reconnectTimeout := some 100 } : SermoSocket) 100 rfl,
   c6_reconnect_backoff.2.2.2
     ({ SermoSocket.create {} with reconnectTimeout := some 100 } : SermoSocket)
     Ev.reconnectFire (by decide)⟩

/-- C8: a reconnect call while a reconnect timer is outstanding is a complete
no-op (same state — so no disconnect, no counter change — and no effect, so no
new timer); and along every event trace from a fresh instance the scheduled
reconnect timers exceed the fired ones exactly by the outstanding-timer
indicator, hence never by more than one: at most one reconnect timer is
pending in every reachable state. -/
theorem c8_reconnect_timer_singleton :
    (∀ (s : SermoSocket) (t : Nat), s.reconnectTimeout = some t → s.reconnect = (s, [])) ∧
    (∀ (opts : SermoSocketOptions) (evs : List Ev),
        countSched (run (SermoSocket.create opts) evs).2
          = countFired (run (SermoSocket.create opts) evs).2
            + timerInd (run (SermoSocket.create opts) evs).1) ∧
    (∀ (opts : SermoSocketOptions) (evs : List Ev),
        countSched (run (SermoSocket.create opts) evs).2
          ≤ countFired (run (SermoSocket.create opts) evs).2 + 1) := by
  have hmain : ∀ (opts : SermoSocketOptions) (evs : List Ev),
      countSched (run (SermoSocket.create opts) evs).2
        = countFired (run (SermoSocket.create opts) evs).2
          + timerInd (run (SermoSocket.create opts) evs).1 := by
    intro opts evs
    have hb := run_balance evs (SermoSocket.create opts)
    simpa [timerInd, SermoSocket.create] using hb
  refine ⟨?_, hmain, ?_⟩
  · intro s t h
    unfold SermoSocket.reconnect
    rw [h]
  · intro opts evs
    have heq := hmain opts evs
    have hle : timerInd (run (SermoSocket.create opts) evs).1 ≤ 1 := by
      unfold timerInd; split <;> omega
    omega

/-- C8 witness: with a timer outstanding, reconnect changes nothing; a trace
that schedules, ignores a duplicate request and fires stays balanced. -/
theorem c8_reconnect_timer_singleton_witness :
    ({ SermoSocket.create {} with reconnectTimeout := some 100 } : SermoSocket).reconnect
      = ({ SermoSocket.create {} with reconnectTimeout := some 100 }, []) ∧
    countSched (run (SermoSocket.create {})
        [Ev.callReconnect, Ev.callReconnect, Ev.reconnectFire]).2
      = countFired (run (SermoSocket.create {})
          [Ev.callReconnect, Ev.callReconnect, Ev.reconnectFire]).2
        + timerInd (run (SermoSocket.create {})
            [Ev.callReconnect, Ev.callReconnect, Ev.reconnectFire]).1 ∧
    countSched (run (SermoSocket.create {})
        [Ev.callReconnect, Ev.callReconnect, Ev.reconnectFire]).2
      ≤ countFired (run (SermoSocket.create {})
          [Ev.callReconnect, Ev.callReconnect, Ev.reconnectFire]).2 + 1 :=
  ⟨c8_reconnect_timer_singleton.1
      ({ SermoSocket.create {} with reconnectTimeout := some 100 } : SermoSocket) 100 rfl,
   c8_reconnect_timer_singleton.2.1 {} [Ev.callReconnect, Ev.callReconnect, Ev.reconnectFire],
   c8_reconnect_timer_singleton.2.2 {} [Ev.callReconnect, Ev.callReconnect, Ev.reconnectFire]⟩

end Sermo
